import Mathlib

/-!
Shallow embedding of the booking service in `src/main.py` (FastAPI + MySQL).

The data store is modelled as in-memory tables (lists of rows).  Dates are
modelled as natural numbers: MySQL compares `DATE` values chronologically,
and every claim only depends on the order of dates, never on their textual
form.  Column values that the code can leave NULL (a booking's `room_id`
and `book_id`, which the legacy `/book` endpoint omits from its INSERT)
are modelled as `Option`.  The randomness consumed by
`random.choices` in `generate_booking_code` is modelled as an explicitly
passed draw function; the SMTP transport of `send_booking_email` is an
external collaborator, so the email is modelled as the message value the
code builds (recipient, guest name, room/code rows), not as I/O.
-/

/-- A row of the `rooms` table.  Columns are those the code reads or writes:
`SELECT *` in `get_free_rooms` together with the pydantic `Room` response
model fixes `id, room_number, type, capacity, price_per_night`, and
`confirm_booking` / `cancel_booking` update `status`. -/
structure Room where
  id : Nat
  room_number : String
  type : String
  capacity : Nat
  price_per_night : Int
  status : String
deriving DecidableEq, Repr

/-- A row of the `bookings` table.  `confirm_booking` inserts
`(user_id, room_id, check_in, check_out, book_id)`; the legacy `book_room`
inserts only `(user_id, check_in, check_out)`, leaving `room_id` and
`book_id` NULL, hence the `Option` columns. -/
structure Booking where
  id : Nat
  user_id : Nat
  room_id : Option Nat
  check_in : Nat
  check_out : Nat
  book_id : Option String
deriving DecidableEq, Repr

/-- A row of the `users` table (`INSERT INTO users (name, email)`). -/
structure User where
  id : Nat
  name : String
  email : String
deriving DecidableEq, Repr

/-- The persistent state: the three tables plus the AUTO_INCREMENT counters
that give out `cursor.lastrowid`. -/
structure DB where
  rooms : List Room
  bookings : List Booking
  users : List User
  nextBookingId : Nat
  nextUserId : Nat
deriving DecidableEq, Repr

/-- An `HTTPException(status_code, detail)` raised by an endpoint. -/
structure HTTPExc where
  status_code : Nat
  detail : String
deriving DecidableEq, Repr

/-- The WHERE clause of the subquery in `get_free_rooms`:
`NOT (check_out <= %s OR check_in >= %s)` with parameters
`(check_in, check_out)` of the request, i.e. the booking's half-open
interval meets the requested one. -/
def overlaps (check_in check_out : Nat) (b : Booking) : Bool :=
  !(b.check_out ≤ check_in || b.check_in ≥ check_out)

/-- SQL three-valued `x NOT IN (subquery)` for a column that may be NULL,
restricted to when the whole predicate is TRUE (the only case `WHERE`
keeps): TRUE exactly when every element of the subquery is non-NULL and
different from `x`.  A NULL element makes the comparison UNKNOWN, so the
row is filtered out. -/
def notInSql (x : Nat) (s : List (Option Nat)) : Bool :=
  s.all fun o => match o with
    | some y => y ≠ x
    | none => false

/-- The rows produced by the SELECT in `get_free_rooms`:
`SELECT * FROM rooms WHERE id NOT IN (SELECT room_id FROM bookings WHERE
NOT (check_out <= %s OR check_in >= %s))`. -/
def free_rooms_rows (db : DB) (check_in check_out : Nat) : List Room :=
  db.rooms.filter fun r =>
    notInSql r.id (((db.bookings.filter (overlaps check_in check_out)).map Booking.room_id))

/-- The response shape of `/rooms/free`: `response_model=List[Room]` keeps
exactly the pydantic `Room` fields, dropping `status`. -/
structure RoomResp where
  id : Nat
  room_number : String
  type : String
  capacity : Nat
  price_per_night : Int
deriving DecidableEq, Repr

/-- Projection applied by the `response_model` when serialising a row. -/
def Room.toResp (r : Room) : RoomResp :=
  ⟨r.id, r.room_number, r.type, r.capacity, r.price_per_night⟩

/-- Endpoint `POST /rooms/free` (`get_free_rooms`): runs the SELECT above,
raises `404 No rooms available for these dates` when it returns no rows,
otherwise returns the rows through the response model.  (The loop that
`strftime`s `r["check_in"]` operates on keys absent from room rows and the
response model drops them, so it has no observable effect.) -/
def get_free_rooms (db : DB) (check_in check_out : Nat) :
    Except HTTPExc (List RoomResp) :=
  let fr := free_rooms_rows db check_in check_out
  if fr.isEmpty then
    .error ⟨404, "No rooms available for these dates"⟩
  else
    .ok (fr.map Room.toResp)

/-- The spec's notion of a free room, written from the claim's words: a
room is free for `[ci, co)` when no booking referencing that room has an
interval overlapping `[ci, co)`.  Used only to compare `free_rooms_rows`
against the claim (refinement); the executable code is `free_rooms_rows`. -/
def specFreeRooms (db : DB) (check_in check_out : Nat) : List Room :=
  db.rooms.filter fun r =>
    !(db.bookings.any fun b => b.room_id == some r.id && overlaps check_in check_out b)

/-- `string.ascii_uppercase + string.digits`, the alphabet of
`generate_booking_code`. -/
def characters : String := "ABCDEFGHIJKLMNOPQRSTUVWXYZ0123456789"

/-- `generate_booking_code(length=5)`: `random.choices(characters, k=5)`
joined to a string.  The random source is the explicit `draw` function;
draw `i` selects index `draw i % 36` of the alphabet, so every possible
outcome of `random.choices` is some `draw`. -/
def generate_booking_code (draw : Nat → Nat) : String :=
  String.mk ((List.range 5).map fun i => characters.toList.getD (draw i % 36) 'A')

/-- The value `send_booking_email(to_email, name, bookings)` assembles and
hands to the SMTP transport: recipient, guest name, and one
(room number, booking code) row per booking.  The transport itself is an
external collaborator. -/
structure EmailMsg where
  to_email : String
  name : String
  rows : List (String × String)
deriving DecidableEq, Repr

/-- Builds the message of `send_booking_email`: subject/HTML template aside,
its observable content is `To: to_email`, the greeting name, and the table
of room/code rows. -/
def send_booking_email (to_email name : String) (bookings : List (String × String)) :
    EmailMsg :=
  ⟨to_email, name, bookings⟩

/-- The value returned by a successful `confirm_booking`, together with the
emails dispatched while handling it. -/
structure ConfirmOut where
  booking_ids : List (Nat × String)
  emails : List EmailMsg
deriving DecidableEq, Repr

/-- The per-room loop of `confirm_booking` (step 2 of the endpoint): for
each room number, `SELECT id FROM rooms WHERE room_number = %s`; raise
`400 Room .. does not exist` when absent; otherwise generate a code, insert
the booking row (committed immediately), and `UPDATE rooms SET
status = .. booked .. WHERE id = %s` (also committed).  Because each
iteration commits, the state reached so far is returned even when a later
iteration raises; `i` counts the calls to `generate_booking_code`. -/
def confirmLoop (user_id check_in check_out : Nat) (draws : Nat → Nat → Nat) :
    List String → Nat → DB → Except HTTPExc (List (Nat × String)) × DB
  | [], _, db => (.ok [], db)
  | rn :: rest, i, db =>
    match db.rooms.find? (fun r => r.room_number == rn) with
    | none => (.error ⟨400, "Room " ++ rn ++ " does not exist"⟩, db)
    | some room =>
      let code := generate_booking_code (draws i)
      let bid := db.nextBookingId
      let db1 : DB :=
        { db with
          bookings := db.bookings ++
            [⟨bid, user_id, some room.id, check_in, check_out, some code⟩],
          nextBookingId := bid + 1,
          rooms := db.rooms.map fun r =>
            if r.id == room.id then { r with status := "booked" } else r }
      match confirmLoop user_id check_in check_out draws rest (i + 1) db1 with
      | (.ok acc, db2) => (.ok ((bid, code) :: acc), db2)
      | (.error e, db2) => (.error e, db2)

/-- Step 1 of `confirm_booking`: `SELECT id FROM users WHERE email=%s`,
returning the existing id, else inserting `(name, email)` and returning
`cursor.lastrowid` (an idempotent lookup-or-create by email). -/
def getOrCreateUser (db : DB) (name email : String) : Nat × DB :=
  match db.users.find? (fun u => u.email == email) with
  | some u => (u.id, db)
  | none =>
    (db.nextUserId,
     { db with users := db.users ++ [⟨db.nextUserId, name, email⟩],
               nextUserId := db.nextUserId + 1 })

/-- Endpoint `POST /confirm_booking`.  Rejects an empty room list (400);
looks up the user by email, inserting one when absent; runs the per-room
loop; then rebinds the local `email` to the hard-coded address
`lecieris00@gmail.com` and sends one email with the zip of room numbers
and booking codes.  Returns the result (or the exception) together with
the committed state. -/
def confirm_booking (db : DB) (name email : String) (check_in check_out : Nat)
    (room_numbers : List String) (draws : Nat → Nat → Nat) :
    Except HTTPExc ConfirmOut × DB :=
  if room_numbers.isEmpty then
    (.error ⟨400, "At least one room must be provided"⟩, db)
  else
    match confirmLoop (getOrCreateUser db name email).1 check_in check_out draws
        room_numbers 0 (getOrCreateUser db name email).2 with
    | (.error e, db2) => (.error e, db2)
    | (.ok ids, db2) =>
      (.ok ⟨ids, [send_booking_email "lecieris00@gmail.com" name
        (room_numbers.zip (ids.map Prod.snd))]⟩, db2)

/-- Endpoint `POST /users` (`create_user`).  The handler builds
`INSERT INTO users (name, email) VALUES (%s, %s, %s)` — three placeholders —
and executes it with the two-tuple `(req.name, req.email)`, so the MySQL
connector raises `Not enough parameters for the SQL statement` on every
call before anything reaches the store; the `except` branch rolls back and
re-raises as `HTTPException(400, ...)`.  Hence: always the error, state
unchanged. -/
def create_user (db : DB) (name email : String) : Except HTTPExc Nat × DB :=
  have _hname := name
  have _hemail := email
  (.error ⟨400, "Not enough parameters for the SQL statement"⟩, db)

/-- Endpoint `POST /book` (`book_room`, the legacy single-room path):
`INSERT INTO bookings (user_id, check_in, check_out) VALUES (%s, %s, %s)`,
no room reference, no availability check, no touch of `rooms`; returns the
new row id. -/
def book_room (db : DB) (user_id check_in check_out : Nat) : Nat × DB :=
  (db.nextBookingId,
   { db with
     bookings := db.bookings ++
       [⟨db.nextBookingId, user_id, none, check_in, check_out, none⟩],
     nextBookingId := db.nextBookingId + 1 })

/-- Python `str.lower()` applied to a status value: lower-case each
character. -/
def pyLower (s : String) : String :=
  String.mk (s.data.map Char.toLower)

/-- Endpoint `POST /bookings` (`get_bookings`).  Despite its name it never
reads the `bookings` table nor the request dates: it selects
`room_number, type, status FROM rooms`, buckets rooms by
`status.lower()`, and renders one English sentence. -/
def get_bookings (db : DB) (check_in check_out : Nat) : String :=
  have _hin := check_in
  have _hout := check_out
  let booked := (db.rooms.filter fun r => pyLower r.status == "booked").map Room.room_number
  let free := (db.rooms.filter fun r => pyLower r.status == "free").map Room.room_number
  let parts :=
    (if booked.isEmpty then [] else
      ["Room " ++ String.intercalate ", " booked ++
        (if booked.length == 1 then " is" else " are") ++ " booked"]) ++
    (if free.isEmpty then [] else
      ["room " ++ String.intercalate ", " free ++
        (if free.length == 1 then " is" else " are") ++ " free"])
  String.intercalate " and " parts ++ "."

/-- Endpoint `DELETE /cancel` (`cancel_booking`): looks the booking up by
`book_id`, 404 when absent; otherwise `DELETE FROM bookings WHERE id = %s`
then `UPDATE rooms SET status = .. free .. WHERE id = %s` with the
booking's `room_id` (a NULL `room_id` matches no room). -/
def cancel_booking (db : DB) (book_code : String) : Except HTTPExc Unit × DB :=
  match db.bookings.find? (fun b => b.book_id == some book_code) with
  | none => (.error ⟨404, "Booking not found"⟩, db)
  | some booking =>
    let db1 : DB :=
      { db with bookings := db.bookings.filter fun b => !(b.id == booking.id) }
    let db2 : DB :=
      { db1 with rooms := db1.rooms.map fun r =>
          if some r.id == booking.room_id then { r with status := "free" } else r }
    (.ok (), db2)

/-- The status invariant of the spec: a room is marked `"booked"` exactly
when some active (present) booking references it. -/
def statusInvB (db : DB) : Bool :=
  db.rooms.all fun r =>
    (r.status == "booked") == db.bookings.any fun b => b.room_id == some r.id

/-! ## Helper lemmas -/

/-- Mapping a function that fixes every member of a list is the identity. -/
theorem map_id_of_mem {α : Type} {l : List α} {f : α → α}
    (h : ∀ x ∈ l, f x = x) : l.map f = l := by
  induction l with
  | nil => rfl
  | cons a t ih =>
    simp only [List.map_cons, h a (List.mem_cons_self a t),
      ih fun x hx => h x (List.mem_cons_of_mem a hx)]

/-- `getD` at an index inside the list returns a member. -/
theorem getD_mem_of_lt {α : Type} (l : List α) (n : Nat) (d : α)
    (h : n < l.length) : l.getD n d ∈ l := by
  rw [List.getD_eq_getElem?_getD, List.getElem?_eq_getElem h]
  exact List.getElem_mem h

/-! ## C10 -/

/-- C10: the legacy `/book` endpoint inserts a booking row with no room
reference (`room_id = NULL`, and also no booking code), performs no
availability or overlap check (it succeeds on every state and input,
including ones where the dates overlap every existing booking), and leaves
the `rooms` table, statuses included, exactly as it was. -/
theorem C10_book_room_frame (db : DB) (user_id check_in check_out : Nat) :
    (book_room db user_id check_in check_out).2.rooms = db.rooms ∧
    (book_room db user_id check_in check_out).2.bookings =
      db.bookings ++ [⟨db.nextBookingId, user_id, none, check_in, check_out, none⟩] ∧
    (book_room db user_id check_in check_out).1 = db.nextBookingId :=
  ⟨rfl, rfl, rfl⟩

/-! ## C6 -/

/-- C6: the claim says `create_user` is an idempotent lookup-or-insert by
email returning the user identifier.  The handler instead builds the
statement `INSERT INTO users (name, email) VALUES (%s, %s, %s)` — three
placeholders — and executes it with only the two values
`(req.name, req.email)`, so the driver rejects every single call and the
handler answers HTTP 400 after a rollback: it never looks anything up,
never inserts, and never returns an id.  This theorem evaluates the code
at every input, in particular at the claim's failing input
`name = "A", email = "a@x.com"`. -/
theorem C6_create_user_always_fails (db : DB) (name email : String) :
    create_user db name email =
      (.error ⟨400, "Not enough parameters for the SQL statement"⟩, db) :=
  rfl

/-! ## C3 -/

/-- A character of the claim's alphabet: uppercase A–Z or digit 0–9. -/
def isUpperAlnum (c : Char) : Bool :=
  (65 ≤ c.toNat && c.toNat ≤ 90) || (48 ≤ c.toNat && c.toNat ≤ 57)

/-- Every character drawn from the alphabet of `generate_booking_code` is
uppercase alphanumeric. -/
theorem isUpperAlnum_getD (n : Nat) :
    isUpperAlnum (characters.toList.getD (n % 36) 'A') = true := by
  have hlen : n % 36 < characters.toList.length :=
    Nat.mod_lt n (by decide)
  have hmem := getD_mem_of_lt characters.toList (n % 36) 'A' hlen
  have hall : ∀ c ∈ characters.toList, isUpperAlnum c = true := by decide
  exact hall _ hmem

/-- C3 (amended): every code produced by `generate_booking_code` — under
any outcome of the random draws — is exactly 5 characters long and drawn
from {A–Z, 0–9}.  The uniqueness half of the claim is refuted by
`C3_counterexample`: the code is used without any collision check. -/
theorem C3_code_shape (draw : Nat → Nat) :
    (generate_booking_code draw).length = 5 ∧
    (generate_booking_code draw).toList.all isUpperAlnum = true := by
  constructor
  · rfl
  · show (((List.range 5).map fun i =>
      characters.toList.getD (draw i % 36) 'A').all isUpperAlnum) = true
    rw [List.all_eq_true]
    intro c hc
    rw [List.mem_map] at hc
    obtain ⟨i, _, rfl⟩ := hc
    exact isUpperAlnum_getD (draw i)

/-- Store for the C3 counterexample: room 102 is still free, and an active
booking on room 101 already holds the code `"AAAAA"`. -/
def dbC3 : DB :=
  ⟨[⟨1, "101", "single", 1, 50, "booked"⟩, ⟨2, "102", "single", 1, 50, "free"⟩],
   [⟨1, 7, some 1, 0, 2, some "AAAAA"⟩],
   [⟨7, "A", "a@x.com"⟩], 2, 8⟩

/-- C3 counterexample: booking room 102 while the random draws reproduce
the already-active code `"AAAAA"` (draw ≡ 0 picks `A` five times) succeeds
and stores a second active booking with the same code: generation is not
collision-checked, nothing regenerates, no retry bound or fatal error
exists, and codes are not unique among active bookings. -/
theorem C3_counterexample :
    (confirm_booking dbC3 "A" "a@x.com" 0 2 ["102"] (fun _ _ => 0)).1 =
      .ok ⟨[(2, "AAAAA")], [⟨"lecieris00@gmail.com", "A", [("102", "AAAAA")]⟩]⟩ ∧
    (confirm_booking dbC3 "A" "a@x.com" 0 2 ["102"] (fun _ _ => 0)).2.bookings.map
      Booking.book_id = [some "AAAAA", some "AAAAA"] :=
  ⟨rfl, rfl⟩

/-! ## C7 -/

/-- Store for the C7 counterexample: one room and one active booking. -/
def dbC7a : DB :=
  ⟨[⟨1, "101", "single", 1, 50, "free"⟩], [⟨1, 7, some 1, 0, 2, some "AAAAA"⟩], [], 2, 1⟩

/-- The same store with the bookings table emptied. -/
def dbC7b : DB :=
  ⟨[⟨1, "101", "single", 1, 50, "free"⟩], [], [], 2, 1⟩

/-- C7 counterexample: `get_bookings` returns the very same sentence on a
store holding an active booking and on the same store with the bookings
table emptied, so its result cannot contain the booking records, their
statuses, or their dates; the sentence it does return only classifies
rooms by their stored status field. -/
theorem C7_counterexample :
    dbC7a.bookings ≠ [] ∧
    get_bookings dbC7a 0 2 = get_bookings dbC7b 0 2 ∧
    get_bookings dbC7a 0 2 = "room 101 is free." := by
  refine ⟨by decide, rfl, rfl⟩

/-- C7 (amended): `get_bookings` ignores the `bookings` table and the
request dates entirely — its output is determined by the `rooms` table
alone (it buckets rooms by `status.lower()` into one English sentence);
there is no status filter, dates are never rendered, and an empty result
is the bare string `"."`, not a distinct condition. -/
theorem C7_rooms_only (db1 db2 : DB) (ci1 co1 ci2 co2 : Nat)
    (h : db1.rooms = db2.rooms) :
    get_bookings db1 ci1 co1 = get_bookings db2 ci2 co2 := by
  unfold get_bookings
  rw [h]

/-- Witness for `C7_rooms_only` at the two concrete stores above and
different request dates. -/
theorem C7_rooms_only_witness :
    get_bookings dbC7a 0 2 = get_bookings dbC7b 5 9 :=
  C7_rooms_only dbC7a dbC7b 0 2 5 9 rfl

/-! ## C9 -/

/-- Two room rows that agree on every column except possibly `status`. -/
def sameExceptStatusB (r1 r2 : Room) : Bool :=
  r1.id == r2.id && r1.room_number == r2.room_number && r1.type == r2.type &&
    r1.capacity == r2.capacity && r1.price_per_night == r2.price_per_night

/-- Two rooms tables of equal length whose rows pairwise agree on every
column except possibly `status`. -/
def roomsMatchB : List Room → List Room → Bool
  | [], [] => true
  | r1 :: t1, r2 :: t2 => sameExceptStatusB r1 r2 && roomsMatchB t1 t2
  | _, _ => false

/-- The serialised free-room rows agree across status-only differences of
the rooms table: the WHERE clause reads only `id` and the bookings table,
and the response projection drops `status`. -/
theorem free_rows_resp_match (bs : List Booking) (ci co : Nat) :
    ∀ l1 l2 : List Room, roomsMatchB l1 l2 = true →
      ((l1.filter fun r =>
        notInSql r.id ((bs.filter (overlaps ci co)).map Booking.room_id)).map Room.toResp) =
      ((l2.filter fun r =>
        notInSql r.id ((bs.filter (overlaps ci co)).map Booking.room_id)).map Room.toResp)
  | [], [], _ => rfl
  | r1 :: t1, r2 :: t2, h => by
    rw [roomsMatchB, Bool.and_eq_true] at h
    obtain ⟨hr, ht⟩ := h
    rw [sameExceptStatusB] at hr
    simp only [Bool.and_eq_true, beq_iff_eq] at hr
    obtain ⟨⟨⟨⟨hid, hnum⟩, hty⟩, hcap⟩, hpr⟩ := hr
    have htail := free_rows_resp_match bs ci co t1 t2 ht
    simp only [List.filter_cons, hid]
    cases hcond : notInSql r2.id ((bs.filter (overlaps ci co)).map Booking.room_id) with
    | false => exact htail
    | true =>
      have hhead : Room.toResp r1 = Room.toResp r2 := by
        unfold Room.toResp
        rw [hid, hnum, hty, hcap, hpr]
      rw [if_pos rfl, if_pos rfl, List.map_cons, List.map_cons, htail, hhead]

/-- The endpoint wrapper respects equality of serialised rows: two row
lists with the same image under the response projection give the same
endpoint answer (both empty and 404, or both the same payload). -/
theorem resp_eq_imp (fr1 fr2 : List Room)
    (h : fr1.map Room.toResp = fr2.map Room.toResp) :
    (if fr1.isEmpty then
      (Except.error ⟨404, "No rooms available for these dates"⟩ :
        Except HTTPExc (List RoomResp))
     else .ok (fr1.map Room.toResp)) =
    (if fr2.isEmpty then
      .error ⟨404, "No rooms available for these dates"⟩
     else .ok (fr2.map Room.toResp)) := by
  cases fr1 with
  | nil =>
    cases fr2 with
    | nil => rfl
    | cons b u => exact absurd h.symm (by simp)
  | cons a t =>
    cases fr2 with
    | nil => exact absurd h (by simp)
    | cons b u =>
      simp only [List.isEmpty_cons, Bool.false_eq_true, if_false]
      rw [h]

/-- C9: the result of `get_free_rooms` — the full endpoint, 404 branch
included — is identical on any two stores with the same bookings table
whose rooms tables differ only in the `status` column: availability is
computed from the bookings intervals alone, and the stored status is
neither read by the WHERE clause nor exposed by the response model.  In
particular a room marked "booked" with no overlapping booking is reported
free. -/
theorem C9_status_independent (db1 db2 : DB) (ci co : Nat)
    (hrooms : roomsMatchB db1.rooms db2.rooms = true)
    (hbook : db1.bookings = db2.bookings) :
    get_free_rooms db1 ci co = get_free_rooms db2 ci co := by
  have hrows : (free_rooms_rows db1 ci co).map Room.toResp =
      (free_rooms_rows db2 ci co).map Room.toResp := by
    unfold free_rooms_rows
    rw [hbook]
    exact free_rows_resp_match db2.bookings ci co db1.rooms db2.rooms hrooms
  exact resp_eq_imp (free_rooms_rows db1 ci co) (free_rooms_rows db2 ci co) hrows

/-- Store for the C9 witness: one room marked "booked" although the
bookings table is empty. -/
def dbC9a : DB := ⟨[⟨1, "101", "single", 1, 50, "booked"⟩], [], [], 1, 1⟩

/-- The same store with the room marked "free". -/
def dbC9b : DB := ⟨[⟨1, "101", "single", 1, 50, "free"⟩], [], [], 1, 1⟩

/-- Witness for `C9_status_independent`: flipping the stored status of
room 101 does not change the availability answer (and the stale "booked"
room is indeed reported free). -/
theorem C9_status_independent_witness :
    get_free_rooms dbC9a 0 2 = get_free_rooms dbC9b 0 2 :=
  C9_status_independent dbC9a dbC9b 0 2 (by decide) rfl

/-! ## C1 -/

/-- Pointwise comparison of the SQL `NOT IN` condition with the claim's
"no overlapping booking references this room" condition: they agree on
every room as soon as every overlapping booking carries a room reference.
(An overlapping booking with NULL `room_id` makes the SQL condition
UNKNOWN for every room, while the claim's condition ignores it.) -/
theorem notInSql_eq_spec (ci co x : Nat) (bs : List Booking)
    (hnn : ∀ b ∈ bs, overlaps ci co b = true → b.room_id ≠ none) :
    notInSql x ((bs.filter (overlaps ci co)).map Booking.room_id) =
      !(bs.any fun b => b.room_id == some x && overlaps ci co b) := by
  induction bs with
  | nil => rfl
  | cons b t ih =>
    have ht := ih fun b2 hb2 hov => hnn b2 (List.mem_cons_of_mem _ hb2) hov
    cases hov : overlaps ci co b with
    | false =>
      rw [List.filter_cons_of_neg (by rw [hov]; exact Bool.false_ne_true),
        List.any_cons, hov, Bool.and_false, Bool.false_or]
      exact ht
    | true =>
      cases hrid : b.room_id with
      | none => exact absurd hrid (hnn b (List.mem_cons_self b t) hov)
      | some y =>
        rw [List.filter_cons_of_pos hov, List.map_cons, List.any_cons, hrid,
          hov, Bool.and_true, Bool.not_or]
        rw [notInSql, List.all_cons, ← notInSql, ht]
        have hopt : ((some y : Option Nat) == some x) = (y == x) := rfl
        have hy : (decide (y ≠ x)) = !(y == x) := by
          by_cases hxy : y = x
          · subst hxy
            simp
          · simp [hxy]
        rw [hopt, ← hy]

/-- C1 (amended).  First conjunct, soundness, unconditional — for every
store state and every pair of dates whatsoever: `get_free_rooms`'s SELECT
never returns a room that has an overlapping booking referencing it.
Second conjunct, exactness: provided every booking overlapping the
requested range `[ci, co)` (with `ci < co`) carries a room reference, the
SELECT returns exactly the rooms with no overlapping booking.  The
exactness direction genuinely needs the proviso: a legacy overlapping
booking with NULL `room_id` turns the `NOT IN` comparison UNKNOWN for
every room and empties the result (`C1_counterexample`). -/
theorem C1_free_rooms :
    (∀ (db : DB) (ci co : Nat), ∀ r ∈ free_rooms_rows db ci co,
      ∀ b ∈ db.bookings, b.room_id = some r.id → overlaps ci co b = false) ∧
    (∀ (db : DB) (ci co : Nat), ci < co →
      (∀ b ∈ db.bookings, overlaps ci co b = true → b.room_id ≠ none) →
      free_rooms_rows db ci co = specFreeRooms db ci co) := by
  constructor
  · intro db ci co r hr b hb hbid
    rw [free_rooms_rows, List.mem_filter] at hr
    obtain ⟨-, hcond⟩ := hr
    by_contra hov
    rw [Bool.not_eq_false] at hov
    have hmem : (some r.id : Option Nat) ∈
        (db.bookings.filter (overlaps ci co)).map Booking.room_id := by
      rw [List.mem_map]
      exact ⟨b, List.mem_filter.2 ⟨hb, hov⟩, hbid⟩
    rw [notInSql, List.all_eq_true] at hcond
    have hx := hcond _ hmem
    simp at hx
  · intro db ci co _hlt hnn
    unfold free_rooms_rows specFreeRooms
    exact List.filter_congr fun r _ => notInSql_eq_spec ci co r.id db.bookings hnn

/-- Store for the C1 counterexample: one room, and one legacy booking
(inserted by the `/book` endpoint) that overlaps `[0, 2)` but references
no room. -/
def dbC1 : DB :=
  ⟨[⟨1, "101", "single", 1, 50, "free"⟩], [⟨1, 7, none, 0, 2, none⟩], [], 2, 1⟩

/-- C1 counterexample: with `checkIn = 0 < 2 = checkOut`, room 101 has no
booking referencing it at all, so the claim says `get_free_rooms` returns
exactly `[room 101]`; but the overlapping NULL-room booking makes
`id NOT IN (...)` UNKNOWN for every room, the SELECT returns no rows, and
the endpoint answers 404 instead. -/
theorem C1_counterexample :
    (0 : Nat) < 2 ∧
    specFreeRooms dbC1 0 2 = [⟨1, "101", "single", 1, 50, "free"⟩] ∧
    free_rooms_rows dbC1 0 2 = [] ∧
    get_free_rooms dbC1 0 2 = .error ⟨404, "No rooms available for these dates"⟩ :=
  ⟨by decide, rfl, rfl, rfl⟩

/-- Store for the C1 witness: two rooms, one overlapping booking on room 2
that does carry its room reference. -/
def dbC1w : DB :=
  ⟨[⟨1, "101", "single", 1, 50, "free"⟩, ⟨2, "102", "single", 1, 50, "booked"⟩],
   [⟨1, 7, some 2, 0, 2, some "AAAAA"⟩], [], 2, 1⟩

/-- Witness for `C1_free_rooms` at a concrete store and range `[0, 2)`:
the exactness conjunct applied with both hypotheses discharged. -/
theorem C1_free_rooms_witness :
    free_rooms_rows dbC1w 0 2 = specFreeRooms dbC1w 0 2 :=
  C1_free_rooms.2 dbC1w 0 2 (by decide) (by decide)

/-! ## C8 -/

/-- When the per-room loop succeeds it returns one (id, code) pair per
requested room number. -/
theorem confirmLoop_ok_length (user_id ci co : Nat) (draws : Nat → Nat → Nat)
    (l : List String) : ∀ (i : Nat) (db : DB) (ids : List (Nat × String)),
    (confirmLoop user_id ci co draws l i db).1 = .ok ids →
    ids.length = l.length := by
  induction l with
  | nil =>
    intro i db ids h
    rw [confirmLoop] at h
    cases h
    rfl
  | cons rn rest ih =>
    intro i db ids h
    rw [confirmLoop] at h
    split at h
    · exact absurd h (by simp)
    · dsimp only at h
      split at h
      · rename_i acc db2 heq
        cases h
        rw [List.length_cons, List.length_cons]
        rw [ih _ _ _ (by rw [heq])]
      · exact absurd h (by simp)

/-- C8 (amended): every successful `confirm_booking` dispatches exactly
one email, containing every requested room number zipped with its booking
code (the two lists have equal length, so every room is paired) — but the
recipient is always the hard-coded address `lecieris00@gmail.com`: the
code rebinds the request's `email` variable before sending, so the guest
address from the request is never used (`C8_counterexample`). -/
theorem C8_single_email_hardcoded (db : DB) (name email : String)
    (ci co : Nat) (rns : List String) (draws : Nat → Nat → Nat)
    (out : ConfirmOut)
    (hok : (confirm_booking db name email ci co rns draws).1 = .ok out) :
    out.emails = [⟨"lecieris00@gmail.com", name,
      rns.zip (out.booking_ids.map Prod.snd)⟩] ∧
    out.booking_ids.length = rns.length := by
  rw [confirm_booking] at hok
  split at hok
  · exact absurd hok (by simp)
  · split at hok
    · exact absurd hok (by simp)
    · rename_i ids db2 heq
      cases hok
      exact ⟨rfl, confirmLoop_ok_length _ _ _ _ _ _ _ _ (by rw [heq])⟩

/-- Store for the C8 counterexample and witness: one free room, no users. -/
def dbC8 : DB := ⟨[⟨1, "101", "single", 1, 50, "free"⟩], [], [], 1, 1⟩

/-- The output of the successful C8 booking run. -/
def outC8 : ConfirmOut :=
  ⟨[(1, "AAAAA")], [⟨"lecieris00@gmail.com", "A", [("101", "AAAAA")]⟩]⟩

/-- C8 counterexample: the guest books with email `a@x.com`, the booking
succeeds, and the single dispatched email is addressed to
`lecieris00@gmail.com`, not to the guest address of the request. -/
theorem C8_counterexample :
    (confirm_booking dbC8 "A" "a@x.com" 0 2 ["101"] (fun _ _ => 0)).1 = .ok outC8 ∧
    outC8.emails.map EmailMsg.to_email = ["lecieris00@gmail.com"] ∧
    "lecieris00@gmail.com" ≠ "a@x.com" :=
  ⟨rfl, rfl, by decide⟩

/-- Witness for `C8_single_email_hardcoded` at the concrete run above. -/
theorem C8_single_email_hardcoded_witness :
    outC8.emails = [⟨"lecieris00@gmail.com", "A",
      ["101"].zip (outC8.booking_ids.map Prod.snd)⟩] ∧
    outC8.booking_ids.length = ["101"].length :=
  C8_single_email_hardcoded dbC8 "A" "a@x.com" 0 2 ["101"] (fun _ _ => 0) outC8 rfl

/-! ## C4 -/

/-- Store for the C4 counterexample: room 101 exists, room 999 does not. -/
def dbC4 : DB := ⟨[⟨1, "101", "single", 1, 50, "free"⟩], [], [], 1, 1⟩

/-- C4 counterexample: `confirm_booking` for rooms `["101", "999"]` fails
(room 999 is unknown) — yet the booking inserted and committed for room
101 remains in the store and room 101 stays marked "booked": nothing is
rolled back, directly contradicting the claim that no booking row is
persisted.  (The request also fails with HTTP status 400, not 404.) -/
theorem C4_counterexample :
    (confirm_booking dbC4 "A" "a@x.com" 0 2 ["101", "999"] (fun _ _ => 0)).1 =
      .error ⟨400, "Room 999 does not exist"⟩ ∧
    (confirm_booking dbC4 "A" "a@x.com" 0 2 ["101", "999"] (fun _ _ => 0)).2.bookings =
      [⟨1, 1, some 1, 0, 2, some "AAAAA"⟩] ∧
    (confirm_booking dbC4 "A" "a@x.com" 0 2 ["101", "999"] (fun _ _ => 0)).2.rooms =
      [⟨1, "101", "single", 1, 50, "booked"⟩] :=
  ⟨rfl, rfl, rfl⟩

/-- C4 (amended): an unknown room number aborts the request with
`HTTPException(400, Room .. does not exist)`; no booking is inserted for
the missing room or any later room, and when the missing room is the
first of the list no booking at all persists and the rooms table is
untouched — only the idempotent user lookup-or-create remains.  Bookings
and status updates already committed for rooms earlier in the list,
however, persist (`C4_counterexample`); the code commits per room and
performs no rollback. -/
theorem C4_first_room_missing (db : DB) (name email : String)
    (ci co : Nat) (rn : String) (rest : List String) (draws : Nat → Nat → Nat)
    (habs : db.rooms.find? (fun r => r.room_number == rn) = none) :
    (confirm_booking db name email ci co (rn :: rest) draws).1 =
      .error ⟨400, "Room " ++ rn ++ " does not exist"⟩ ∧
    (confirm_booking db name email ci co (rn :: rest) draws).2.bookings =
      db.bookings ∧
    (confirm_booking db name email ci co (rn :: rest) draws).2.rooms =
      db.rooms ∧
    (confirm_booking db name email ci co (rn :: rest) draws).2.users =
      (getOrCreateUser db name email).2.users := by
  have hrooms : (getOrCreateUser db name email).2.rooms = db.rooms := by
    rw [getOrCreateUser]
    split <;> rfl
  have hbook : (getOrCreateUser db name email).2.bookings = db.bookings := by
    rw [getOrCreateUser]
    split <;> rfl
  have hloop : confirmLoop (getOrCreateUser db name email).1 ci co draws
      (rn :: rest) 0 (getOrCreateUser db name email).2 =
      (.error ⟨400, "Room " ++ rn ++ " does not exist"⟩,
        (getOrCreateUser db name email).2) := by
    rw [confirmLoop, hrooms, habs]
  rw [confirm_booking]
  rw [if_neg (by simp)]
  rw [hloop]
  exact ⟨rfl, hbook, hrooms, rfl⟩

/-- Witness for `C4_first_room_missing`: booking only the unknown room
`"999"` on the store above fails and leaves bookings and rooms unchanged. -/
theorem C4_first_room_missing_witness :
    (confirm_booking dbC4 "A" "a@x.com" 0 2 ["999"] (fun _ _ => 0)).1 =
      .error ⟨400, "Room " ++ "999" ++ " does not exist"⟩ ∧
    (confirm_booking dbC4 "A" "a@x.com" 0 2 ["999"] (fun _ _ => 0)).2.bookings =
      dbC4.bookings ∧
    (confirm_booking dbC4 "A" "a@x.com" 0 2 ["999"] (fun _ _ => 0)).2.rooms =
      dbC4.rooms ∧
    (confirm_booking dbC4 "A" "a@x.com" 0 2 ["999"] (fun _ _ => 0)).2.users =
      (getOrCreateUser dbC4 "A" "a@x.com").2.users :=
  C4_first_room_missing dbC4 "A" "a@x.com" 0 2 "999" [] (fun _ _ => 0) rfl

/-! ## C5 -/

/-- The user lookup-or-create step never touches the rooms table. -/
theorem getOrCreateUser_rooms (db : DB) (name email : String) :
    (getOrCreateUser db name email).2.rooms = db.rooms := by
  rw [getOrCreateUser]
  split <;> rfl

/-- The user lookup-or-create step never touches the bookings table. -/
theorem getOrCreateUser_bookings (db : DB) (name email : String) :
    (getOrCreateUser db name email).2.bookings = db.bookings := by
  rw [getOrCreateUser]
  split <;> rfl

/-- The user lookup-or-create step never touches the booking counter. -/
theorem getOrCreateUser_nextBookingId (db : DB) (name email : String) :
    (getOrCreateUser db name email).2.nextBookingId = db.nextBookingId := by
  rw [getOrCreateUser]
  split <;> rfl

/-- One iteration of the per-room loop on a single-element list, when the
room resolves: insert the booking with the generated code and mark the
room booked. -/
theorem confirmLoop_single (user_id ci co : Nat) (draws : Nat → Nat → Nat)
    (rn : String) (db : DB) (room : Room)
    (hfind : db.rooms.find? (fun r => r.room_number == rn) = some room) :
    confirmLoop user_id ci co draws [rn] 0 db =
      (.ok [(db.nextBookingId, generate_booking_code (draws 0))],
       { db with
         bookings := db.bookings ++
           [⟨db.nextBookingId, user_id, some room.id, ci, co,
             some (generate_booking_code (draws 0))⟩],
         nextBookingId := db.nextBookingId + 1,
         rooms := db.rooms.map fun r =>
           if r.id == room.id then { r with status := "booked" } else r }) := by
  rw [confirmLoop, hfind]
  rfl

/-- `cancel_booking` when the code lookup resolves to `bk`: delete rows
with the id of `bk`, mark the rooms with the id referenced by `bk` free. -/
theorem cancel_booking_eq (db : DB) (code : String) (bk : Booking)
    (hfind : db.bookings.find? (fun b => b.book_id == some code) = some bk) :
    cancel_booking db code = (.ok (),
      { db with
        bookings := db.bookings.filter fun b => !(b.id == bk.id),
        rooms := db.rooms.map fun r =>
          if some r.id == bk.room_id then { r with status := "free" } else r }) := by
  rw [cancel_booking, hfind]

/-- C5 (amended): for an existing room whose rows are all marked "free"
and a fresh outcome of the code generator — the generated code differing
from every stored booking code, and the fresh row id differing from every
stored booking id — `confirm_booking` succeeds with that code and an
immediate `cancel_booking` by the returned code restores both the rooms
table and the bookings table exactly to their pre-booking values.  The
freshness provisos are genuinely needed: nothing in the code makes codes
unique, and when the generated code collides with an existing booking's
code the cancellation deletes the wrong booking (`C5_counterexample`). -/
theorem C5_round_trip (db : DB) (name email : String) (ci co : Nat)
    (rn : String) (draws : Nat → Nat → Nat) (room : Room)
    (hfind : db.rooms.find? (fun r => r.room_number == rn) = some room)
    (hfree : ∀ r ∈ db.rooms, r.id = room.id → r.status = "free")
    (hfresh : ∀ b ∈ db.bookings, b.book_id ≠ some (generate_booking_code (draws 0)))
    (hid : ∀ b ∈ db.bookings, b.id ≠ db.nextBookingId) :
    (confirm_booking db name email ci co [rn] draws).1 =
      .ok ⟨[(db.nextBookingId, generate_booking_code (draws 0))],
        [⟨"lecieris00@gmail.com", name, [(rn, generate_booking_code (draws 0))]⟩]⟩ ∧
    (cancel_booking (confirm_booking db name email ci co [rn] draws).2
      (generate_booking_code (draws 0))).2.rooms = db.rooms ∧
    (cancel_booking (confirm_booking db name email ci co [rn] draws).2
      (generate_booking_code (draws 0))).2.bookings = db.bookings := by
  have hur := getOrCreateUser_rooms db name email
  have hub := getOrCreateUser_bookings db name email
  have hun := getOrCreateUser_nextBookingId db name email
  have hloop := confirmLoop_single (getOrCreateUser db name email).1 ci co draws
    rn (getOrCreateUser db name email).2 room (by rw [hur]; exact hfind)
  have hconf : confirm_booking db name email ci co [rn] draws =
      (.ok ⟨[((getOrCreateUser db name email).2.nextBookingId,
              generate_booking_code (draws 0))],
        [⟨"lecieris00@gmail.com", name, [(rn, generate_booking_code (draws 0))]⟩]⟩,
       { (getOrCreateUser db name email).2 with
         bookings := (getOrCreateUser db name email).2.bookings ++
           [⟨(getOrCreateUser db name email).2.nextBookingId,
             (getOrCreateUser db name email).1, some room.id, ci, co,
             some (generate_booking_code (draws 0))⟩],
         nextBookingId := (getOrCreateUser db name email).2.nextBookingId + 1,
         rooms := (getOrCreateUser db name email).2.rooms.map fun r =>
           if r.id == room.id then { r with status := "booked" } else r }) := by
    rw [confirm_booking, if_neg (by simp), hloop]
    rfl
  have hcancelfind :
      ({ (getOrCreateUser db name email).2 with
         bookings := (getOrCreateUser db name email).2.bookings ++
           [⟨(getOrCreateUser db name email).2.nextBookingId,
             (getOrCreateUser db name email).1, some room.id, ci, co,
             some (generate_booking_code (draws 0))⟩],
         nextBookingId := (getOrCreateUser db name email).2.nextBookingId + 1,
         rooms := (getOrCreateUser db name email).2.rooms.map fun r =>
           if r.id == room.id then { r with status := "booked" } else r } : DB).bookings.find?
        (fun b => b.book_id == some (generate_booking_code (draws 0))) =
      some ⟨(getOrCreateUser db name email).2.nextBookingId,
             (getOrCreateUser db name email).1, some room.id, ci, co,
             some (generate_booking_code (draws 0))⟩ := by
    show ((getOrCreateUser db name email).2.bookings ++ [_]).find? _ = _
    rw [List.find?_append, hub]
    have hnone : db.bookings.find?
        (fun b => b.book_id == some (generate_booking_code (draws 0))) = none := by
      rw [List.find?_eq_none]
      intro b hb hbeq
      exact hfresh b hb (by rwa [beq_iff_eq] at hbeq)
    rw [hnone]
    rw [List.find?_cons_of_pos _ (by simp)]
    rfl
  have hcancel := cancel_booking_eq _ _ _ hcancelfind
  refine ⟨by rw [hconf, hun], ?_, ?_⟩
  · rw [hconf]
    dsimp only
    rw [hcancel]
    dsimp only
    rw [hur, List.map_map]
    apply map_id_of_mem
    intro r hr
    cases r with
    | mk i n t cap p s =>
      by_cases hcase : i = room.id
      · have hs : s = "free" := hfree _ hr hcase
        subst hs
        simp [Function.comp, hcase]
      · simp [Function.comp, hcase]
  · rw [hconf]
    dsimp only
    rw [hcancel]
    dsimp only
    rw [hub, List.filter_append]
    have h1 : db.bookings.filter
        (fun b => !(b.id == (getOrCreateUser db name email).2.nextBookingId)) =
        db.bookings := by
      rw [List.filter_eq_self]
      intro b hb
      rw [hun, Bool.not_eq_true', beq_eq_false_iff_ne]
      exact hid b hb
    rw [h1]
    rw [List.filter_cons_of_neg (by simp), List.filter_nil, List.append_nil]

/-- Store for the C5 counterexample: a pre-existing booking on room 102
already holds the code `"AAAAA"`; room 101 is free. -/
def dbC5 : DB :=
  ⟨[⟨1, "101", "single", 1, 50, "free"⟩, ⟨2, "102", "single", 1, 50, "booked"⟩],
   [⟨1, 7, some 2, 0, 2, some "AAAAA"⟩],
   [⟨7, "B", "b@x.com"⟩], 2, 8⟩

/-- C5 counterexample: room 101 exists and is free and the range is valid,
`confirm_booking` succeeds returning code `"AAAAA"` (the draws collide
with the pre-existing code), but `cancel_booking` with the returned code
finds the FIRST booking holding `"AAAAA"` — the pre-existing one on room
102 — deletes it and frees room 102: afterwards the booking created by
the confirm remains in the store and room 101 is still "booked", so the
create-then-cancel composition does not return the room and booking
tables to their pre-booking state. -/
theorem C5_counterexample :
    (confirm_booking dbC5 "A" "a@x.com" 5 7 ["101"] (fun _ _ => 0)).1 =
      .ok ⟨[(2, "AAAAA")], [⟨"lecieris00@gmail.com", "A", [("101", "AAAAA")]⟩]⟩ ∧
    (cancel_booking (confirm_booking dbC5 "A" "a@x.com" 5 7 ["101"]
        (fun _ _ => 0)).2 "AAAAA").2.bookings =
      [⟨2, 8, some 1, 5, 7, some "AAAAA"⟩] ∧
    (cancel_booking (confirm_booking dbC5 "A" "a@x.com" 5 7 ["101"]
        (fun _ _ => 0)).2 "AAAAA").2.rooms =
      [⟨1, "101", "single", 1, 50, "booked"⟩, ⟨2, "102", "single", 1, 50, "free"⟩] ∧
    dbC5.bookings ≠ [⟨2, 8, some 1, 5, 7, some "AAAAA"⟩] ∧
    dbC5.rooms ≠
      [⟨1, "101", "single", 1, 50, "booked"⟩, ⟨2, "102", "single", 1, 50, "free"⟩] :=
  ⟨rfl, rfl, rfl, by decide, by decide⟩

/-- Store for the C5 witness: one free room, empty bookings. -/
def dbC5w : DB := ⟨[⟨1, "101", "single", 1, 50, "free"⟩], [], [], 1, 1⟩

/-- Witness for `C5_round_trip` on the concrete store above: booking room
101 and cancelling with the returned code restores both tables. -/
theorem C5_round_trip_witness :
    (cancel_booking (confirm_booking dbC5w "A" "a@x.com" 0 2 ["101"]
        (fun _ _ => 0)).2 (generate_booking_code (fun _ => 0))).2.rooms =
      dbC5w.rooms ∧
    (cancel_booking (confirm_booking dbC5w "A" "a@x.com" 0 2 ["101"]
        (fun _ _ => 0)).2 (generate_booking_code (fun _ => 0))).2.bookings =
      dbC5w.bookings :=
  ⟨(C5_round_trip dbC5w "A" "a@x.com" 0 2 "101" (fun _ _ => 0)
      ⟨1, "101", "single", 1, 50, "free"⟩ rfl (by decide) (by decide) (by decide)).2.1,
   (C5_round_trip dbC5w "A" "a@x.com" 0 2 "101" (fun _ _ => 0)
      ⟨1, "101", "single", 1, 50, "free"⟩ rfl (by decide) (by decide) (by decide)).2.2⟩

/-! ## C2 -/

/-- The Boolean invariant unfolded to the logical statement: every room is
marked "booked" exactly when some stored booking references it. -/
theorem statusInvB_iff (db : DB) : statusInvB db = true ↔
    ∀ r ∈ db.rooms, (r.status = "booked" ↔
      ∃ b, b ∈ db.bookings ∧ b.room_id = some r.id) := by
  rw [statusInvB, List.all_eq_true]
  constructor
  · intro h r hr
    have hx := h r hr
    rw [beq_iff_eq, Bool.eq_iff_iff] at hx
    simpa [List.any_eq_true, beq_iff_eq] using hx
  · intro h r hr
    rw [beq_iff_eq, Bool.eq_iff_iff]
    simpa [List.any_eq_true, beq_iff_eq] using h r hr

/-- One loop iteration of `confirm_booking` preserves the status
invariant: it inserts a booking referencing room `rid` and marks exactly
the rooms with id `rid` as "booked". -/
theorem statusInvB_insert_mark (db : DB) (uid rid bid ci co : Nat)
    (code : String) (h : statusInvB db = true) :
    statusInvB { db with
      bookings := db.bookings ++ [⟨bid, uid, some rid, ci, co, some code⟩],
      nextBookingId := bid + 1,
      rooms := db.rooms.map fun r =>
        if r.id == rid then { r with status := "booked" } else r } = true := by
  rw [statusInvB_iff] at h ⊢
  intro r hr
  rw [List.mem_map] at hr
  obtain ⟨r0, hr0, rfl⟩ := hr
  dsimp only
  by_cases hcase : r0.id = rid
  · rw [if_pos (beq_iff_eq.2 hcase)]
    constructor
    · intro _
      exact ⟨⟨bid, uid, some rid, ci, co, some code⟩, by simp, by simp [hcase]⟩
    · intro _
      rfl
  · rw [if_neg (fun hc => hcase (beq_iff_eq.1 hc))]
    have h0 := h r0 hr0
    constructor
    · intro hs
      obtain ⟨b, hb, hbid⟩ := h0.1 hs
      exact ⟨b, List.mem_append_left _ hb, hbid⟩
    · rintro ⟨b, hb, hbid⟩
      rcases List.mem_append.1 hb with hbl | hbr
      · exact h0.2 ⟨b, hbl, hbid⟩
      · rw [List.mem_singleton] at hbr
        subst hbr
        exact absurd (Option.some.inj hbid).symm hcase

/-- The whole per-room loop preserves the status invariant, from any
starting index, also on the partially committed state left behind by a
failing iteration. -/
theorem confirmLoop_statusInv (user_id ci co : Nat) (draws : Nat → Nat → Nat)
    (l : List String) : ∀ (i : Nat) (db : DB), statusInvB db = true →
      statusInvB (confirmLoop user_id ci co draws l i db).2 = true := by
  induction l with
  | nil =>
    intro i db h
    exact h
  | cons rn rest ih =>
    intro i db h
    rw [confirmLoop]
    cases hf : db.rooms.find? (fun r => r.room_number == rn) with
    | none => exact h
    | some room =>
      dsimp only
      have hstep := statusInvB_insert_mark db user_id room.id db.nextBookingId
        ci co (generate_booking_code (draws i)) h
      have hrec := ih (i + 1) _ hstep
      split
      · rename_i acc db2 heq
        rw [heq] at hrec
        exact hrec
      · rename_i e db2 heq
        rw [heq] at hrec
        exact hrec

/-- The user lookup-or-create step preserves the invariant (it touches
only the users table). -/
theorem getOrCreateUser_statusInv (db : DB) (name email : String) :
    statusInvB (getOrCreateUser db name email).2 = statusInvB db := by
  rw [getOrCreateUser]
  split <;> rfl

/-- `confirm_booking` preserves the status invariant on every input, the
empty-list rejection and the partially committed room-not-found state
included. -/
theorem confirm_statusInv (db : DB) (name email : String) (ci co : Nat)
    (rns : List String) (draws : Nat → Nat → Nat)
    (h : statusInvB db = true) :
    statusInvB (confirm_booking db name email ci co rns draws).2 = true := by
  rw [confirm_booking]
  split
  · exact h
  · have hu : statusInvB (getOrCreateUser db name email).2 = true := by
      rw [getOrCreateUser_statusInv]
      exact h
    have hloop := confirmLoop_statusInv (getOrCreateUser db name email).1 ci co
      draws rns 0 (getOrCreateUser db name email).2 hu
    split
    · rename_i e db2 heq
      rw [heq] at hloop
      exact hloop
    · rename_i ids db2 heq
      rw [heq] at hloop
      exact hloop

/-- `cancel_booking` preserves the status invariant provided booking ids
are unique and the canceled booking is the only one referencing its
room.  Without the latter proviso the invariant breaks
(`C2_counterexample`). -/
theorem cancel_statusInv (db : DB) (code : String) (bk : Booking)
    (h : statusInvB db = true)
    (hfind : db.bookings.find? (fun b => b.book_id == some code) = some bk)
    (huniq : ∀ b1 ∈ db.bookings, ∀ b2 ∈ db.bookings, b1.id = b2.id → b1 = b2)
    (hsole : ∀ b ∈ db.bookings, b.room_id = bk.room_id → b = bk) :
    statusInvB (cancel_booking db code).2 = true := by
  rw [cancel_booking_eq db code bk hfind]
  have hbk : bk ∈ db.bookings := List.mem_of_find?_eq_some hfind
  rw [statusInvB_iff] at h ⊢
  intro r hr
  rw [List.mem_map] at hr
  obtain ⟨r0, hr0, rfl⟩ := hr
  dsimp only
  by_cases hcase : (some r0.id : Option Nat) = bk.room_id
  · rw [if_pos (beq_iff_eq.2 hcase)]
    constructor
    · intro hs
      have hs2 : "free" = "booked" := hs
      exact absurd hs2 (by decide)
    · rintro ⟨b, hb, hbid⟩
      rw [List.mem_filter] at hb
      obtain ⟨hbmem, hbne⟩ := hb
      have hbbk := hsole b hbmem (by rw [hbid]; exact hcase)
      rw [hbbk] at hbne
      simp at hbne
  · rw [if_neg (fun hc => hcase (beq_iff_eq.1 hc))]
    have h0 := h r0 hr0
    constructor
    · intro hs
      obtain ⟨b, hb, hbid⟩ := h0.1 hs
      refine ⟨b, List.mem_filter.2 ⟨hb, ?_⟩, hbid⟩
      rw [Bool.not_eq_true', beq_eq_false_iff_ne]
      intro hbid2
      have hbbk := huniq b hb bk hbk hbid2
      rw [hbbk] at hbid
      exact hcase hbid.symm
    · rintro ⟨b, hb, hbid⟩
      rw [List.mem_filter] at hb
      exact h0.2 ⟨b, hb.1, hbid⟩

/-- C2 (amended): the status equivalence — a room is marked "booked" iff
some active booking references it — is preserved by `confirm_booking` on
every input and by `create_user` (which never changes the store); the
read-only operations `get_free_rooms` and `get_bookings` return no state
and trivially preserve it; but `cancel_booking` preserves it only when
booking ids are unique and the canceled booking is the SOLE active
booking referencing its room.  The unconditional claim is false: cancel
always sets the room "free", and with a second active booking on the same
room the equivalence breaks (`C2_counterexample`). -/
theorem C2_status_invariant :
    (∀ (db : DB) (name email : String) (ci co : Nat) (rns : List String)
        (draws : Nat → Nat → Nat), statusInvB db = true →
      statusInvB (confirm_booking db name email ci co rns draws).2 = true) ∧
    (∀ (db : DB) (name email : String), (create_user db name email).2 = db) ∧
    (∀ (db : DB) (code : String) (bk : Booking), statusInvB db = true →
      db.bookings.find? (fun b => b.book_id == some code) = some bk →
      (∀ b1 ∈ db.bookings, ∀ b2 ∈ db.bookings, b1.id = b2.id → b1 = b2) →
      (∀ b ∈ db.bookings, b.room_id = bk.room_id → b = bk) →
      statusInvB (cancel_booking db code).2 = true) :=
  ⟨fun db name email ci co rns draws h =>
      confirm_statusInv db name email ci co rns draws h,
   fun _ _ _ => rfl,
   fun db code bk h hfind huniq hsole =>
      cancel_statusInv db code bk h hfind huniq hsole⟩

/-- Store for the C2 counterexample: room 1 is marked "booked" and has TWO
active bookings (codes "AAAAA" and "BBBBB"); the invariant holds. -/
def dbC2 : DB :=
  ⟨[⟨1, "101", "single", 1, 50, "booked"⟩],
   [⟨1, 7, some 1, 0, 2, some "AAAAA"⟩, ⟨2, 7, some 1, 3, 5, some "BBBBB"⟩],
   [⟨7, "B", "b@x.com"⟩], 3, 8⟩

/-- C2 counterexample: the invariant holds before, `cancel_booking` of
code "AAAAA" succeeds — and afterwards the invariant is broken: the room
is marked "free" while the booking with code "BBBBB" still references it.
Canceling one booking of a room marks the room "free" even though another
active booking for that room exists, contradicting the claim. -/
theorem C2_counterexample :
    statusInvB dbC2 = true ∧
    (cancel_booking dbC2 "AAAAA").1 = .ok () ∧
    statusInvB (cancel_booking dbC2 "AAAAA").2 = false := by
  refine ⟨by decide, rfl, by decide⟩

/-- Store for the C2 witness: room 1 "booked" with exactly one active
booking referencing it. -/
def dbC2w : DB :=
  ⟨[⟨1, "101", "single", 1, 50, "booked"⟩],
   [⟨1, 7, some 1, 0, 2, some "AAAAA"⟩],
   [⟨7, "B", "b@x.com"⟩], 2, 8⟩

/-- Witness for `C2_status_invariant` (the cancel conjunct, whose
hypotheses are all discharged at a concrete store): canceling the sole
booking of room 1 keeps the invariant. -/
theorem C2_status_invariant_witness :
    statusInvB (cancel_booking dbC2w "AAAAA").2 = true :=
  C2_status_invariant.2.2 dbC2w "AAAAA" ⟨1, 7, some 1, 0, 2, some "AAAAA"⟩
    (by decide) (by decide) (by decide) (by decide)
